import Mathlib

/-!
Shallow embedding of `homework.py` (a Telegram homework-status bot).

The program polls an HTTP API, validates the JSON payload, formats the
latest homework record into a message and sends it, with a deduplicated
error-notification channel and an infinite sleep loop.

Modelling conventions:
* JSON-ish Python values are `PyObj`; dictionaries are association lists
  (Python dicts have unique keys, so first-match lookup is the dict lookup).
* A raised Python exception is the error branch of `Except` (or an
  `Option PyErr` paired with the post-state where the global mutable state
  must survive the raise).
* The network and the system clock are parameters: the HTTP layer is a
  function from the queried `from_date` to an `HttpResult`, and Telegram
  delivery success is a boolean supplied by the environment.
* `logger` calls are side effects on stdout; only the debug log of the
  main loop is tracked (claim-relevant), via a list of logged lines.
-/

set_option autoImplicit false

namespace HomeworkBot

/-- Python values as they occur in this program: JSON payloads, record
fields, `None` defaults. -/
inductive PyObj where
  | str (s : String)
  | int (n : Int)
  | bool (b : Bool)
  | list (xs : List PyObj)
  | dict (xs : List (String × PyObj))
  | none
deriving Repr

mutual

/-- Python `repr` of a value (used by `str` on containers). Escaping inside
string literals is not reproduced; no claim depends on it. -/
def PyObj.pyRepr : PyObj → String
  | .str s => "'" ++ s ++ "'"
  | .int n => toString n
  | .bool b => if b then "True" else "False"
  | .list xs => "[" ++ String.intercalate ", " (PyObj.pyReprList xs) ++ "]"
  | .dict xs => "\x7b" ++ String.intercalate ", " (PyObj.pyReprDict xs) ++ "\x7d"
  | .none => "None"

/-- `repr` of each element of a Python list. -/
def PyObj.pyReprList : List PyObj → List String
  | [] => []
  | x :: xs => PyObj.pyRepr x :: PyObj.pyReprList xs

/-- `repr` of each key-value pair of a Python dict. -/
def PyObj.pyReprDict : List (String × PyObj) → List String
  | [] => []
  | (k, v) :: xs => ("'" ++ k ++ "': " ++ PyObj.pyRepr v) :: PyObj.pyReprDict xs

end

/-- Python `str()` of a value, as used by f-string interpolation. -/
def PyObj.pyStr : PyObj → String
  | .str s => s
  | x => PyObj.pyRepr x

/-- Python `key in d` for a dict `d`. -/
def dictHasKey (d : List (String × PyObj)) (k : String) : Bool :=
  d.any (fun kv => kv.1 = k)

/-- Python `d.get(key)` (without default): `some` value or `none`. -/
def dictGet (d : List (String × PyObj)) (k : String) : Option PyObj :=
  (d.find? (fun kv => kv.1 = k)).map (fun kv => kv.2)

/-- Python `str(x)` where `x` came from `d.get(key)` and may be `None`. -/
def pyStrOpt : Option PyObj → String
  | Option.none => "None"
  | Option.some v => v.pyStr

/-- The exception kinds this program can raise or meet.
`SendMessageException`, `ApiResponseException` and
`ApiResponseStatusException` are the classes imported from the repository's
`exceptions` module; `transport` stands for the exception classes of the
external `requests` library and `telegramError` for those of the external
`telegram` library. Each carries its `str()` message. -/
inductive PyErr where
  | typeError (msg : String)
  | keyError (msg : String)
  | indexError
  | apiResponse (msg : String)
  | apiResponseStatus (msg : String)
  | sendMessage (msg : String)
  | transport (msg : String)
  | telegramError (msg : String)
deriving Repr, DecidableEq

/-- Python `str(error)` for the handler's f-string. -/
def PyErr.msg : PyErr → String
  | .typeError m => m
  | .keyError m => m
  | .indexError => "list index out of range"
  | .apiResponse m => m
  | .apiResponseStatus m => m
  | .sendMessage m => m
  | .transport m => m
  | .telegramError m => m

/-- Modelled from the spec: the repository's `exceptions.py` is not under
`src/`; per the spec (§4.2, §4.5) `ApiResponseError`,
`ApiResponseStatusError` and `SendMessageError` are distinct error kinds,
so `except ApiResponseException` matches exactly the `ApiResponseException`
kind — in particular not the transport exceptions of the external
`requests` library. -/
def excIsApiResponse : PyErr → Bool
  | .apiResponse _ => true
  | _ => false

/-- Modelled from the spec: `except SendMessageException` matches exactly
the `SendMessageException` kind (spec §4.5), not the external `telegram`
library's errors. -/
def excIsSendMessage : PyErr → Bool
  | .sendMessage _ => true
  | _ => false

/-- `HOMEWORK_VERDICTS`: the fixed 3-entry verdict table. -/
def HOMEWORK_VERDICTS : List (String × String) :=
  [("approved", "Замечаний нет."),
   ("reviewing", "Ревьювер проверяет работу."),
   ("rejected", "Есть замечания.")]

/-- `LAST_HOMEWORK_LIST_ID = 0`. -/
def LAST_HOMEWORK_LIST_ID : Nat := 0

/-- `TELEGRAM_RETRY_TIME = 600`. -/
def TELEGRAM_RETRY_TIME : Int := 600

/-- Python `HOMEWORK_VERDICTS.get(homework_status)`: the verdict text
looked up for a string status, `None` for any other hashable value.
`parse_status` evaluates this only after the membership test
`statusNotInVerdicts` has returned `false`, which guarantees a string
key. -/
def verdictOf : Option PyObj → Option String
  | Option.some (.str s) => (HOMEWORK_VERDICTS.find? (fun kv => kv.1 = s)).map (fun kv => kv.2)
  | _ => Option.none

/-- Python `homework_status not in HOMEWORK_VERDICTS`: a list- or
dict-valued status makes the membership test itself raise
`TypeError: unhashable type`; every other value (a string, a number,
a bool, or the `None` of an absent field) is hashable, and the test is
`true` exactly when the value is not one of the 3 string keys. -/
def statusNotInVerdicts : Option PyObj → Except PyErr Bool
  | Option.some (.list _) => .error (.typeError "unhashable type: 'list'")
  | Option.some (.dict _) => .error (.typeError "unhashable type: 'dict'")
  | Option.some (.str s) => .ok (!(HOMEWORK_VERDICTS.any (fun kv => kv.1 = s)))
  | _ => .ok true

/-- Message of the `KeyError` raised by `check_response`. -/
def missingKeysMsg : String := "Отсутствуют ожидаемые ключи в ответе API Яндекс"

/--
`check_response(response)`: raises `TypeError` unless `response` is a dict;
returns `response.get('homeworks')` when both keys `'homeworks'` and
`'current_date'` are present and the homeworks value is a list; otherwise
raises `KeyError`.
-/
def check_response (response : PyObj) : Except PyErr (List PyObj) :=
  match response with
  | .dict d =>
    if dictHasKey d "homeworks" && dictHasKey d "current_date" then
      match dictGet d "homeworks" with
      | Option.some (.list hws) => .ok hws
      | _ => .error (.keyError missingKeysMsg)
    else
      .error (.keyError missingKeysMsg)
  | r =>
    .error (.typeError ("Функция принимает словарь в качестве аргумента,"
      ++ "передан - " ++ r.pyStr))

/-- Message of the `KeyError` raised by `parse_status` on a record without
`homework_name`. -/
def missingNameMsg : String := "Ключ homework_name отсутствует в ответе от API Яндекс"

/-- Message of the `KeyError` raised by `parse_status` on an undocumented
status (the f-string interpolates `str(homework.get('status'))`). -/
def undocumentedStatusMsg (status : Option PyObj) : String :=
  "Недокументированный статус проверки" ++ "в ответе API Яндекс - " ++ pyStrOpt status

/--
`parse_status(homework)` on a dict record, with the global `cache_errors`
threaded explicitly (second component of the result). `now` is
`datetime.datetime.now().strftime("%d-%m-%Y %H:%M")`. Raises `KeyError` if
`homework_name` is absent; the membership test on the status then either
raises `TypeError` (unhashable status value), or routes a status outside
the verdict table to the undocumented-status `KeyError`; on success
clears `cache_errors` and returns the formatted message.
-/
def parse_status_dict (now : String) (hw : List (String × PyObj))
    (cache : List String) : Except PyErr String × List String :=
  if dictHasKey hw "homework_name" = false then
    (.error (.keyError missingNameMsg), cache)
  else
    let homework_name := pyStrOpt (dictGet hw "homework_name")
    let reviewer_comment :=
      match dictGet hw "reviewer_comment" with
      | Option.some v => v.pyStr
      | Option.none => "коммента нет"
    match statusNotInVerdicts (dictGet hw "status") with
    | .error e => (.error e, cache)
    | .ok true =>
      (.error (.keyError (undocumentedStatusMsg (dictGet hw "status"))), cache)
    | .ok false =>
      let verdict :=
        match verdictOf (dictGet hw "status") with
        | Option.some v => v
        | Option.none => "None"
      (.ok (now ++ "\n"
        ++ "Работа - \"" ++ homework_name ++ "\".\n"
        ++ "Вердикт - " ++ verdict ++ "\n"
        ++ "Комментарий - " ++ reviewer_comment ++ "\n"), [])

/-- `parse_status(homework)` on an arbitrary value. A non-dict argument
makes Python's `'homework_name' not in homework` fail (approximated as a
`TypeError`; the main loop catches every such error the same way). -/
def parse_status (now : String) (homework : PyObj)
    (cache : List String) : Except PyErr String × List String :=
  match homework with
  | .dict d => parse_status_dict now d cache
  | r => (.error (.typeError ("argument of type " ++ r.pyStr ++ " is not a mapping")), cache)

/-- What the network does with one GET request: either `requests.get`
raises a transport exception, or an HTTP response with a status code and a
decoded JSON body comes back. -/
inductive HttpResult where
  | transportFail (msg : String)
  | response (status : Nat) (body : PyObj)
deriving Repr

/-- `timestamp = current_timestamp or int(time.time())`: Python truthiness
on `None` and on integers (`0` is falsy). -/
def effective_timestamp (current_timestamp : Option Int) (now : Int) : Int :=
  match current_timestamp with
  | Option.none => now
  | Option.some n => if n = 0 then now else n

/-- Message of the `ApiResponseException` re-raised by `get_api_answer`. -/
def endpointUnreachableMsg : String :=
  "Не удалось выполнить запрос. Эндпоинт API Яндекс недоступен"

/-- Message of the `ApiResponseStatusException` for a non-200 status. -/
def statusCodeMsg (code : Nat) : String :=
  "Ошибка эндпоинта. Статус код  - " ++ toString code

/--
`get_api_answer(current_timestamp)`: computes the effective `from_date`
(truthiness fallback to `int(time.time())`), issues the GET request, and:
on HTTP 200 returns the decoded body; on any other status raises
`ApiResponseStatusException` inside the `try`; the `except
ApiResponseException` clause converts a caught `ApiResponseException` into
a fresh one with the "endpoint unreachable" message. `http` maps the
queried `from_date` to the network's behaviour.
-/
def get_api_answer (now : Int) (current_timestamp : Option Int)
    (http : Int → HttpResult) : Except PyErr PyObj :=
  let timestamp := effective_timestamp current_timestamp now
  let body : Except PyErr PyObj :=
    match http timestamp with
    | .transportFail m => .error (.transport m)
    | .response code payload =>
      if code = 200 then .ok payload
      else .error (.apiResponseStatus (statusCodeMsg code))
  match body with
  | .ok v => .ok v
  | .error e =>
    if excIsApiResponse e then .error (.apiResponse endpointUnreachableMsg)
    else .error e

/-- Message of the `SendMessageException` re-raised by `send_message`. -/
def sendFailMsg : String := "Сбой при отправке сообщения пользователю"

/--
`send_message(bot, message)`: `bot.send_message(TELEGRAM_CHAT_ID, message)`
delivers the message (appended to the `sent` log) when the Telegram
transport works (`sendOk`), and raises a `telegram` library error
otherwise. The `except SendMessageException` clause would convert a caught
`SendMessageException` into a fresh one with a fixed message.
-/
def send_message (sendOk : Bool) (message : String)
    (sent : List String) : Except PyErr (List String) :=
  let attempt : Except PyErr (List String) :=
    if sendOk then .ok (sent ++ [message])
    else .error (.telegramError "telegram delivery failed")
  match attempt with
  | .ok s => .ok s
  | .error e =>
    if excIsSendMessage e then .error (.sendMessage sendFailMsg)
    else .error e

/-- The three environment variables read at startup (`None` when absent). -/
structure Config where
  practicum_token : Option String
  telegram_token : Option String
  telegram_chat_id : Option String

/-- Python truthiness of an optional string (`None` and `''` are falsy). -/
def pyTruthyStr : Option String → Bool
  | Option.none => false
  | Option.some s => !(s = "")

/-- `check_tokens()`: true iff all three environment variables are set and
non-empty (each missing one is logged at critical level and yields false). -/
def check_tokens (c : Config) : Bool :=
  if pyTruthyStr c.practicum_token = false then false
  else if pyTruthyStr c.telegram_token = false then false
  else if pyTruthyStr c.telegram_chat_id = false then false
  else true

/-- `main` before the loop: `sys.exit()` is called iff `check_tokens()` is
`False`; otherwise the poll cursor starts at `int(time.time()) -
TELEGRAM_RETRY_TIME` and the loop is entered. -/
def startup (c : Config) (now : Int) : Option Int :=
  if check_tokens c = false then Option.none
  else Option.some (now - TELEGRAM_RETRY_TIME)

/-- The mutable state a loop iteration reads and writes: the poll cursor
`current_timestamp`, the global `cache_errors` list, the log of messages
delivered to Telegram, and the debug-level log lines. -/
structure LoopState where
  current_timestamp : Int
  cache_errors : List String
  sent : List String
  debugLog : List String
deriving Repr

/-- One iteration's environment: the clock, the formatted wall-clock
string, the network, and whether each of the two possible Telegram sends
(the status send in the `try` block, the error send in the handler) would
succeed. -/
structure Env where
  now : Int
  nowStr : String
  http : Int → HttpResult
  statusSendOk : Bool
  errorSendOk : Bool

/--
The `try` suite of `main`'s loop body: fetch, validate, select index 0,
format, send, then advance the cursor. A raise carries the state as
mutated so far (e.g. a successful `parse_status` has already cleared
`cache_errors` even if the send then fails).
-/
def main_try (env : Env) (st : LoopState) : Except (PyErr × LoopState) LoopState :=
  match get_api_answer env.now (Option.some st.current_timestamp) env.http with
  | .error e => .error (e, st)
  | .ok response =>
    match check_response response with
    | .error e => .error (e, st)
    | .ok homeworks =>
      match homeworks.get? LAST_HOMEWORK_LIST_ID with
      | Option.none => .error (.indexError, st)
      | Option.some hw =>
        match parse_status env.nowStr hw st.cache_errors with
        | (.error e, cache) => .error (e, { st with cache_errors := cache })
        | (.ok message, cache) =>
          match send_message env.statusSendOk message st.sent with
          | .error e => .error (e, { st with cache_errors := cache })
          | .ok sent =>
            .ok { st with cache_errors := cache, sent := sent,
                          current_timestamp := env.now }

/-- Debug line logged on the empty-sequence path. -/
def noNewStatusMsg : String := "В ответе API Яндекс отсутствуют новые статусы"

/-- Prefix of the generic handler's notification text. -/
def programFailureMsg (e : PyErr) : String :=
  "Сбой в работе программы: " ++ e.msg

/--
`send_error_message(message)`: sends only when the message is not in
`cache_errors`, and appends it to the cache only after the send returned.
The first component is the exception propagating out, if any; the second
is the resulting (cache, sent) state.
-/
def send_error_message (sendOk : Bool) (message : String)
    (cache : List String) (sent : List String) :
    Option PyErr × List String × List String :=
  if message ∈ cache then (Option.none, cache, sent)
  else
    match send_message sendOk message sent with
    | .error e => (Option.some e, cache, sent)
    | .ok sent' => (Option.none, cache ++ [message], sent')

/-- How one pass through `while True:` ends: `normal` reaches the
`finally` sleep and loops again; `crashed e` means an exception escaped
the `try`/`except` and propagates out of `main`, terminating the process
(after the `finally` sleep). -/
inductive IterOutcome where
  | normal
  | crashed (e : PyErr)
deriving Repr, DecidableEq

/--
The `except Exception` handler of `main`'s loop: logs the exception with
its trace and dispatches `'Сбой в работе программы: {error}'` via
`send_error_message`; an exception raised by that call escapes the loop.
-/
def main_handler (env : Env) (e : PyErr) (st' : LoopState) : IterOutcome × LoopState :=
  match send_error_message env.errorSendOk (programFailureMsg e)
      st'.cache_errors st'.sent with
  | (Option.none, cache, sent) =>
    (.normal, { st' with cache_errors := cache, sent := sent })
  | (Option.some e', _, _) => (.crashed e', st')

/--
One iteration of `main`'s loop: run the `try` suite; `except IndexError`
logs at debug level; `except Exception` runs `main_handler`.
-/
def main_iter (env : Env) (st : LoopState) : IterOutcome × LoopState :=
  match main_try env st with
  | .ok st' => (.normal, st')
  | .error (.indexError, st') =>
    (.normal, { st' with debugLog := st'.debugLog ++ [noNewStatusMsg] })
  | .error (e, st') => main_handler env e st'

/-- `sub` occurs contiguously inside `s`. -/
def containsStr (s sub : String) : Prop := ∃ pre post, s = pre ++ sub ++ post

/-- Whether the `try` suite of one loop iteration ran to completion
(fetch, validate, select, format and send all succeeded). -/
def iterationSucceeded (env : Env) (st : LoopState) : Bool :=
  match main_try env st with
  | .ok _ => true
  | .error _ => false

theorem dictHasKey_eq_isSome (d : List (String × PyObj)) (k : String) :
    dictHasKey d k = (dictGet d k).isSome := by
  induction d with
  | nil => rfl
  | cons kv tl ih =>
    by_cases h : kv.1 = k
    · simp [dictHasKey, dictGet, List.any_cons, List.find?_cons_of_pos, h]
    · simp only [dictHasKey, List.any_cons] at *
      rw [dictGet, List.find?_cons_of_neg, ← dictGet, ih]
      · simp [h]
      · simp [h]

theorem verdicts_any_eq_isSome (k : String) :
    HOMEWORK_VERDICTS.any (fun kv => kv.1 = k) =
      (HOMEWORK_VERDICTS.find? (fun kv => kv.1 = k)).isSome := by
  by_cases h1 : k = "approved"
  · simp [HOMEWORK_VERDICTS, h1]
  · by_cases h2 : k = "reviewing"
    · simp [HOMEWORK_VERDICTS, h2]
    · by_cases h3 : k = "rejected"
      · simp [HOMEWORK_VERDICTS, h3]
      · simp [HOMEWORK_VERDICTS, h1, h2, h3, Ne.symm h1, Ne.symm h2, Ne.symm h3]

theorem statusNotInVerdicts_false_iff (st : Option PyObj) :
    statusNotInVerdicts st = .ok false ↔ ∃ v, verdictOf st = Option.some v := by
  cases st with
  | none => simp [statusNotInVerdicts, verdictOf]
  | some x =>
    cases x with
    | str s =>
      rw [statusNotInVerdicts, verdictOf, verdicts_any_eq_isSome]
      cases hf : HOMEWORK_VERDICTS.find? (fun kv => kv.1 = s) <;> simp [hf]
    | int n => simp [statusNotInVerdicts, verdictOf]
    | bool b => simp [statusNotInVerdicts, verdictOf]
    | list xs => simp [statusNotInVerdicts, verdictOf]
    | dict xs => simp [statusNotInVerdicts, verdictOf]
    | none => simp [statusNotInVerdicts, verdictOf]

theorem send_error_message_sendOk_no_raise (m : String) (cache sent : List String) :
    (send_error_message true m cache sent).1 = Option.none := by
  unfold send_error_message send_message
  split <;> simp

theorem main_try_ok_cursor (env : Env) (st st' : LoopState)
    (h : main_try env st = .ok st') : st'.current_timestamp = env.now := by
  unfold main_try at h
  repeat' split at h
  all_goals cases h
  all_goals rfl

theorem main_try_error_cursor (env : Env) (st : LoopState) (e : PyErr) (st' : LoopState)
    (h : main_try env st = .error (e, st')) : st'.current_timestamp = st.current_timestamp := by
  unfold main_try at h
  repeat' split at h
  all_goals cases h
  all_goals rfl

/-- Claim C2, counterexample: a mapping holding `'homeworks'` as a list but
lacking only `'current_date'` is not returned unchanged — `check_response`
raises the missing-keys `KeyError` on it, because the source requires both
keys to be present (`all(key in response for key in check_keys)`). -/
theorem check_response_missing_current_date_raises :
    check_response (.dict [("homeworks", PyObj.list [])]) =
      .error (.keyError missingKeysMsg) := by
  rfl

/-- Claim C2 (amended): `check_response` on a mapping returns the homeworks
sequence unchanged exactly when the `'homeworks'` value is a list and the
`'current_date'` key is also present; every other mapping makes it raise
the missing-keys `KeyError` — in particular a mapping lacking either one
of the two expected keys (not only one lacking both). -/
theorem check_response_dict_spec (d : List (String × PyObj)) (hws : List PyObj) :
    (check_response (.dict d) = .ok hws ↔
      dictGet d "homeworks" = Option.some (.list hws) ∧
        dictHasKey d "current_date" = true)
    ∧ ((∃ l, check_response (.dict d) = .ok l) ∨
        check_response (.dict d) = .error (.keyError missingKeysMsg)) := by
  rcases hget : dictGet d "homeworks" with _ | v
  · have hk : dictHasKey d "homeworks" = false := by
      rw [dictHasKey_eq_isSome, hget]; rfl
    simp [check_response, hk, hget]
  · have hk : dictHasKey d "homeworks" = true := by
      rw [dictHasKey_eq_isSome, hget]; rfl
    cases hcd : dictHasKey d "current_date" with
    | false => simp [check_response, hk, hcd]
    | true => cases v <;> simp [check_response, hk, hcd, hget]

/-- Claim C3 (the code at the failing input): a transport-level failure of
the GET request propagates out of `get_api_answer` as the raw transport
exception of the `requests` library; the `except ApiResponseException`
clause never matches it, so the "endpoint unreachable" `ApiResponseError`
is never produced. -/
theorem get_api_answer_transport_propagates_raw (now : Int) (ct : Option Int)
    (m : String) :
    get_api_answer now ct (fun _ => HttpResult.transportFail m) =
      .error (.transport m) := by
  rfl

/-- The code at the concrete failing input of claim C3: a connection
error during the GET propagates raw. -/
theorem get_api_answer_transport_witness :
    get_api_answer 1000 (Option.some 5)
        (fun _ => HttpResult.transportFail "ConnectionError") =
      .error (.transport "ConnectionError") :=
  get_api_answer_transport_propagates_raw 1000 (Option.some 5) "ConnectionError"

/-- Claim C9: `get_api_answer` substitutes the current time via Python
truthiness (`current_timestamp or int(time.time())`), so the integer
timestamp `0` behaves exactly like a missing timestamp: the query is made
with the current time and the Unix epoch can never be requested. -/
theorem get_api_answer_zero_timestamp (now : Int) (http : Int → HttpResult) :
    effective_timestamp (Option.some 0) now = now
    ∧ effective_timestamp Option.none now = now
    ∧ get_api_answer now (Option.some 0) http = get_api_answer now Option.none http := by
  refine ⟨rfl, rfl, ?_⟩
  unfold get_api_answer effective_timestamp
  simp

/-- Claim C10: when the outbound send raises, `send_error_message` leaves
the error cache (and the delivery log) unchanged — the append runs only
after a successful send — so the same text is still sent by a later call
once delivery works. -/
theorem send_error_message_cache_on_failure (m : String) (cache sent : List String)
    (h : m ∉ cache) :
    send_error_message false m cache sent =
      (Option.some (.telegramError "telegram delivery failed"), cache, sent)
    ∧ (send_error_message true m cache sent).2.1 = cache ++ [m]
    ∧ (send_error_message true m cache sent).2.2 = sent ++ [m] := by
  unfold send_error_message send_message
  simp [h, excIsSendMessage]

/-- Witness for `send_error_message_cache_on_failure` at a concrete input. -/
theorem send_error_message_cache_on_failure_witness :
    send_error_message false "err" [] ["old"] =
      (Option.some (.telegramError "telegram delivery failed"), [], ["old"])
    ∧ (send_error_message true "err" [] ["old"]).2.1 = [] ++ ["err"]
    ∧ (send_error_message true "err" [] ["old"]).2.2 = ["old"] ++ ["err"] :=
  send_error_message_cache_on_failure "err" [] ["old"] (by simp)

/-- Claim C7: starting from an empty error cache with working delivery,
two `send_error_message` calls with the identical text perform exactly one
outbound send, while two calls with distinct texts perform two sends —
at most one notification per distinct error text until the cache is
cleared. -/
theorem send_error_message_dedup (m m' : String) (sent : List String)
    (h : m ≠ m') :
    (send_error_message true m
        (send_error_message true m [] sent).2.1
        (send_error_message true m [] sent).2.2).2.2 = sent ++ [m]
    ∧ (send_error_message true m'
        (send_error_message true m [] sent).2.1
        (send_error_message true m [] sent).2.2).2.2 = sent ++ [m, m'] := by
  unfold send_error_message send_message
  simp [Ne.symm h]

/-- Witness for `send_error_message_dedup` at concrete distinct texts. -/
theorem send_error_message_dedup_witness :
    (send_error_message true "e1"
        (send_error_message true "e1" [] []).2.1
        (send_error_message true "e1" [] []).2.2).2.2 = [] ++ ["e1"]
    ∧ (send_error_message true "e2"
        (send_error_message true "e1" [] []).2.1
        (send_error_message true "e1" [] []).2.2).2.2 = [] ++ ["e1", "e2"] :=
  send_error_message_dedup "e1" "e2" [] (by decide)

theorem main_handler_cursor (env : Env) (e : PyErr) (st' : LoopState) :
    (main_handler env e st').2.current_timestamp = st'.current_timestamp := by
  unfold main_handler
  rcases send_error_message env.errorSendOk (programFailureMsg e)
      st'.cache_errors st'.sent with ⟨_ | e', c, s⟩ <;> rfl

theorem main_handler_no_raise (env : Env) (e : PyErr) (st' : LoopState)
    (h : env.errorSendOk = true) : (main_handler env e st').1 = IterOutcome.normal := by
  unfold main_handler
  rw [h]
  rcases hsem : send_error_message true (programFailureMsg e)
      st'.cache_errors st'.sent with ⟨_ | e', c, s⟩
  · rfl
  · have hno := send_error_message_sendOk_no_raise (programFailureMsg e)
      st'.cache_errors st'.sent
    rw [hsem] at hno
    simp at hno

/-- Claim C1, counterexample: an iteration in which the fetch fails (HTTP
500) and the deduplicated error notification itself fails to send does not
stay inside the loop — the exception raised by `send_error_message`
escapes the `try`/`except` of `main` and terminates the process. -/
theorem main_iter_crashes_when_error_send_fails :
    main_iter
        { now := 2000, nowStr := "t",
          http := fun _ => HttpResult.response 500 (PyObj.dict []),
          statusSendOk := true, errorSendOk := false }
        { current_timestamp := 1000, cache_errors := [], sent := [],
          debugLog := [] } =
      (IterOutcome.crashed (.telegramError "telegram delivery failed"),
        { current_timestamp := 1000, cache_errors := [], sent := [],
          debugLog := [] }) := by
  rfl

/-- Claim C1 (amended): every exception raised by fetch, validate, format
or the status send inside a loop iteration (other than the empty-sequence
index error) is caught at the orchestrator boundary, and the iteration
ends normally provided the deduplicated error notification itself does not
raise — in particular whenever its Telegram delivery succeeds. When that
notification raises, the exception escapes the loop, so the startup
configuration check is not the only path that terminates the process. -/
theorem main_iter_no_crash_of_error_send_ok (env : Env) (st : LoopState)
    (h : env.errorSendOk = true) : (main_iter env st).1 = IterOutcome.normal := by
  unfold main_iter
  rcases htry : main_try env st with ⟨e, st'⟩ | st'
  · cases e <;> first
      | rfl
      | exact main_handler_no_raise env _ st' h
  · rfl

/-- Witness for `main_iter_no_crash_of_error_send_ok`: a concrete failing
iteration with a working error-notification channel ends normally. -/
theorem main_iter_no_crash_witness :
    (main_iter
        { now := 2000, nowStr := "t",
          http := fun _ => HttpResult.response 500 (PyObj.dict []),
          statusSendOk := true, errorSendOk := true }
        { current_timestamp := 1000, cache_errors := [], sent := [],
          debugLog := [] }).1 = IterOutcome.normal :=
  main_iter_no_crash_of_error_send_ok _ _ rfl

/-- Claim C4: the poll cursor is advanced to the current time exactly when
the `try` suite (fetch, validate, select, format, send) ran to completion;
on every failure path and on the empty-sequence path it keeps its previous
value, so the next fetch reuses the same `from_date`. -/
theorem main_iter_cursor_advance (env : Env) (st : LoopState) :
    (main_iter env st).2.current_timestamp =
      if iterationSucceeded env st then env.now else st.current_timestamp := by
  unfold main_iter iterationSucceeded
  rcases htry : main_try env st with ⟨e, st'⟩ | st'
  · have hc := main_try_error_cursor env st e st' htry
    cases e <;> simp [main_handler_cursor, hc]
  · simp [main_try_ok_cursor env st st' htry]

/-- Claim C5: on a record that has a `homework_name` field and whose
status is one of the 3 verdict keys, `parse_status` succeeds, clears the
error cache, and the returned message contains the mapped verdict text,
the record's name, and the reviewer comment (or the placeholder
`'коммента нет'` when the comment field is absent). -/
theorem parse_status_success (now : String) (hw : List (String × PyObj))
    (cache : List String) (nameObj : PyObj) (verdict : String)
    (hname : dictGet hw "homework_name" = Option.some nameObj)
    (hstat : verdictOf (dictGet hw "status") = Option.some verdict) :
    ∃ msg, parse_status now (.dict hw) cache = (.ok msg, [])
      ∧ containsStr msg verdict
      ∧ containsStr msg nameObj.pyStr
      ∧ containsStr msg (match dictGet hw "reviewer_comment" with
          | Option.some v => v.pyStr
          | Option.none => "коммента нет") := by
  have hk : dictHasKey hw "homework_name" = true := by
    rw [dictHasKey_eq_isSome, hname]; rfl
  have hnotin : statusNotInVerdicts (dictGet hw "status") = .ok false :=
    (statusNotInVerdicts_false_iff (dictGet hw "status")).mpr ⟨verdict, hstat⟩
  refine ⟨now ++ "\n"
      ++ "Работа - \"" ++ nameObj.pyStr ++ "\".\n"
      ++ "Вердикт - " ++ verdict ++ "\n"
      ++ "Комментарий - " ++ (match dictGet hw "reviewer_comment" with
          | Option.some v => v.pyStr
          | Option.none => "коммента нет") ++ "\n", ?_, ?_, ?_, ?_⟩
  · simp [parse_status, parse_status_dict, hk, hname, hstat, hnotin, pyStrOpt]
  · exact ⟨now ++ "\n" ++ "Работа - \"" ++ nameObj.pyStr ++ "\".\n" ++ "Вердикт - ",
      "\n" ++ "Комментарий - " ++ (match dictGet hw "reviewer_comment" with
          | Option.some v => v.pyStr
          | Option.none => "коммента нет") ++ "\n",
      by simp [String.append_assoc]⟩
  · exact ⟨now ++ "\n" ++ "Работа - \"",
      "\".\n" ++ "Вердикт - " ++ verdict ++ "\n"
        ++ "Комментарий - " ++ (match dictGet hw "reviewer_comment" with
          | Option.some v => v.pyStr
          | Option.none => "коммента нет") ++ "\n",
      by simp [String.append_assoc]⟩
  · exact ⟨now ++ "\n" ++ "Работа - \"" ++ nameObj.pyStr ++ "\".\n"
        ++ "Вердикт - " ++ verdict ++ "\n" ++ "Комментарий - ",
      "\n",
      by simp [String.append_assoc]⟩

/-- Witness for `parse_status_success` at a concrete approved record with
no reviewer comment and a stale error cache. -/
theorem parse_status_success_witness :
    ∃ msg, parse_status "01-01-2020 10:00"
        (.dict [("homework_name", PyObj.str "X"), ("status", PyObj.str "approved")])
        ["stale error"] = (.ok msg, [])
      ∧ containsStr msg "Замечаний нет."
      ∧ containsStr msg (PyObj.str "X").pyStr
      ∧ containsStr msg "коммента нет" :=
  parse_status_success "01-01-2020 10:00"
    [("homework_name", PyObj.str "X"), ("status", PyObj.str "approved")]
    ["stale error"] (PyObj.str "X") "Замечаний нет." rfl rfl

/-- Claim C6, counterexample: a record whose status is the (unhashable)
empty list does not fail with a missing-key error — the membership test
`homework_status not in HOMEWORK_VERDICTS` itself raises
`TypeError: unhashable type: 'list'` before the undocumented-status branch
is reached. -/
theorem parse_status_unhashable_status_raises :
    (parse_status "t"
        (.dict [("homework_name", PyObj.str "X"), ("status", PyObj.list [])])
        []).1 = .error (.typeError "unhashable type: 'list'") := by
  rfl

/-- Claim C6 (amended): a record whose status is absent or is a hashable
value that is not one of the 3 known verdict keys makes `parse_status`
raise a `KeyError` — when the name is present, the undocumented-status
`KeyError`, computed identically for missing and unknown statuses; a
record whose status is an unhashable value (a list or a dict) instead
fails with the `TypeError` raised by the membership test itself. Either
way no status outside the verdict table is silently accepted: every such
record makes `parse_status` raise. -/
theorem parse_status_bad_status (now : String) (hw : List (String × PyObj))
    (cache : List String)
    (h : verdictOf (dictGet hw "status") = Option.none) :
    (∃ e, (parse_status now (.dict hw) cache).1 = Except.error e)
    ∧ (statusNotInVerdicts (dictGet hw "status") = .ok true →
        (∃ m, (parse_status now (.dict hw) cache).1 = .error (.keyError m))
        ∧ (dictHasKey hw "homework_name" = true →
            (parse_status now (.dict hw) cache).1 =
              .error (.keyError (undocumentedStatusMsg (dictGet hw "status")))))
    ∧ (∀ e, statusNotInVerdicts (dictGet hw "status") = .error e →
        dictHasKey hw "homework_name" = true →
        (parse_status now (.dict hw) cache).1 = .error e) := by
  refine ⟨?_, ?_, ?_⟩
  · unfold parse_status parse_status_dict
    cases hk : dictHasKey hw "homework_name" with
    | false => exact ⟨.keyError missingNameMsg, by simp [hk]⟩
    | true =>
      rcases hsv : statusNotInVerdicts (dictGet hw "status") with e | b
      · exact ⟨e, by simp [hk, hsv]⟩
      · cases b with
        | true =>
          exact ⟨.keyError (undocumentedStatusMsg (dictGet hw "status")),
            by simp [hk, hsv]⟩
        | false =>
          rcases (statusNotInVerdicts_false_iff (dictGet hw "status")).mp hsv
            with ⟨v, hv⟩
          rw [h] at hv
          cases hv
  · intro hok
    constructor
    · unfold parse_status parse_status_dict
      cases hk : dictHasKey hw "homework_name" with
      | false => exact ⟨missingNameMsg, by simp [hk]⟩
      | true =>
        exact ⟨undocumentedStatusMsg (dictGet hw "status"), by simp [hk, hok]⟩
    · intro hkname
      unfold parse_status parse_status_dict
      simp [hkname, hok]
  · intro e hsv hkname
    unfold parse_status parse_status_dict
    simp [hkname, hsv]

/-- Witness for `parse_status_bad_status` at a concrete record with an
unknown (hashable) status value. -/
theorem parse_status_bad_status_witness :
    (∃ e, (parse_status "t"
        (.dict [("homework_name", PyObj.str "X"), ("status", PyObj.str "weird")])
        []).1 = Except.error e)
    ∧ (parse_status "t"
        (.dict [("homework_name", PyObj.str "X"), ("status", PyObj.str "weird")])
        []).1 = .error (.keyError (undocumentedStatusMsg
          (dictGet [("homework_name", PyObj.str "X"), ("status", PyObj.str "weird")]
            "status"))) :=
  ⟨(parse_status_bad_status "t"
      [("homework_name", PyObj.str "X"), ("status", PyObj.str "weird")] [] rfl).1,
    ((parse_status_bad_status "t"
      [("homework_name", PyObj.str "X"), ("status", PyObj.str "weird")] [] rfl).2.1
        rfl).2 rfl⟩

/-- Claim C8: in an iteration where the fetch succeeds and validation
returns an empty homework sequence, selecting index 0 raises the
out-of-range error, which is caught specifically: the iteration ends
normally, the debug line `'В ответе API Яндекс отсутствуют новые статусы'`
is appended to the debug log, and nothing else changes — no message of any
kind is sent, the error cache and the cursor keep their values. -/
theorem main_iter_empty_homeworks (env : Env) (st : LoopState) (r : PyObj)
    (h1 : get_api_answer env.now (Option.some st.current_timestamp) env.http = .ok r)
    (h2 : check_response r = .ok []) :
    main_iter env st =
      (IterOutcome.normal,
        { st with debugLog := st.debugLog ++ [noNewStatusMsg] }) := by
  unfold main_iter main_try
  rw [h1]
  dsimp only
  rw [h2]
  rfl

/-- Witness for `main_iter_empty_homeworks`: a concrete 200 response with
an empty homeworks list leaves everything but the debug log unchanged. -/
theorem main_iter_empty_homeworks_witness :
    main_iter
        { now := 1000, nowStr := "t",
          http := fun _ => HttpResult.response 200
            (PyObj.dict [("homeworks", PyObj.list []), ("current_date", PyObj.int 5)]),
          statusSendOk := true, errorSendOk := true }
        { current_timestamp := 50, cache_errors := ["e"], sent := ["s"],
          debugLog := ["d"] } =
      (IterOutcome.normal,
        { current_timestamp := 50, cache_errors := ["e"], sent := ["s"],
          debugLog := ["d", noNewStatusMsg] }) :=
  main_iter_empty_homeworks _ _
    (PyObj.dict [("homeworks", PyObj.list []), ("current_date", PyObj.int 5)])
    rfl rfl

end HomeworkBot
